import Mathlib

/-!
Verification of the vibe-list auth relay server (server.js).

The development shallowly embeds the OAuth relay and AI-proxy request
handlers of the repository as pure Lean functions: the process-local
transaction Map becomes an explicit association list threaded through the
handlers, the network calls (token-endpoint fetch, generative-model call)
become function parameters, and query/body parameters become
`Option String` / JSON-like values with JavaScript truthiness.
-/

set_option autoImplicit false

namespace VibeList

/-! ## Transaction store

Embeds the process-local `const txns = new Map()` of server.js together
with the three Map operations the handlers use: `txns.get(state)`,
`txns.set(state, { redirect })`, `txns.delete(state)`. A stored
transaction holds exactly the `redirect` string, as in the source. -/

abbrev Store := List (String × String)

def Store.get : Store → String → Option String
  | [], _ => none
  | (k, v) :: rest, s => if k = s then some v else Store.get rest s

def Store.set : Store → String → String → Store
  | [], s, r => [(s, r)]
  | (k, v) :: rest, s, r => if k = s then (s, r) :: rest else (k, v) :: Store.set rest s r

def Store.del : Store → String → Store
  | [], _ => []
  | (k, v) :: rest, s => if k = s then Store.del rest s else (k, v) :: Store.del rest s

/-! ## JavaScript truthiness of query parameters

Express query parameters are strings when present; a missing parameter is
`undefined`. The handlers test them with `if (!x)`, which treats both
`undefined` and the empty string as absent. -/

def truthyS : Option String → Bool
  | none => false
  | some s => s ≠ ""

/-- Falls back like the JavaScript `a || b` on an optional string `a`. -/
def jsOrS : Option String → String → String
  | none, b => b
  | some a, b => if a = "" then b else a

/-! ## Redirect validation

Embeds the test `/^https?:\/\/.+/i.test(redirect)` of the start handler.
The regex is case-insensitive and `.` excludes the four JavaScript line
terminators, so the string must begin (up to case) with `http://` or
`https://` followed by at least one non-line-terminator character. -/

def lineTerminator (c : Char) : Bool :=
  c = '\n' || c = '\r' || c = Char.ofNat 0x2028 || c = Char.ofNat 0x2029

def schemeThenChar (pre : List Char) (l : List Char) : Bool :=
  (pre.isPrefixOf (l.map Char.toLower)) &&
    (match l.drop pre.length with
     | [] => false
     | c :: _ => !lineTerminator c)

def redirectOk (r : String) : Bool :=
  schemeThenChar "http://".data r.data || schemeThenChar "https://".data r.data

/-! ## Provider configuration

The config object of server.js, with the environment-supplied fields left
as parameters and the literal fields as in the source. -/

structure ProviderCfg where
  auth : String
  token : String
  clientId : String
  clientSecret : String
  redirectUri : String
  scope : String

def cfgSpotify (clientId clientSecret redirectUri : String) : ProviderCfg where
  auth := "https://accounts.spotify.com/authorize"
  token := "https://accounts.spotify.com/api/token"
  clientId := clientId
  clientSecret := clientSecret
  redirectUri := redirectUri
  scope := "playlist-modify-public playlist-modify-private ugc-image-upload"

def cfgGoogle (clientId clientSecret redirectUri : String) : ProviderCfg where
  auth := "https://accounts.google.com/o/oauth2/v2/auth"
  token := "https://oauth2.googleapis.com/token"
  clientId := clientId
  clientSecret := clientSecret
  redirectUri := redirectUri
  scope := "https://www.googleapis.com/auth/youtube"

/-! ## GET /oauth/start

Embeds the start handler. The freshly generated random state
(`crypto.randomBytes(16).toString("hex")`) is passed in as a parameter.
The redirect response is represented structurally as the authorization
base URL together with the exact ordered list of query parameters the
handler sets on it. -/

structure AuthRedirect where
  base : String
  params : List (String × String)

inductive StartResult where
  | badProvider
  | badRedirect
  | redirectTo (u : AuthRedirect)

def validProvider : Option String → Bool
  | none => false
  | some p => p = "spotify" || p = "google"

def oauthStart (txns : Store) (provider redirect : Option String) (state : String)
    (sp go : ProviderCfg) : StartResult × Store :=
  if !validProvider provider then (.badProvider, txns)
  else
    match redirect with
    | none => (.badRedirect, txns)
    | some r =>
      if r = "" || !redirectOk r then (.badRedirect, txns)
      else
        let txns := txns.set state r
        if provider = some "spotify" then
          (.redirectTo ⟨sp.auth,
            [("response_type", "code"), ("client_id", sp.clientId),
             ("redirect_uri", sp.redirectUri), ("scope", sp.scope),
             ("state", state), ("show_dialog", "true")]⟩, txns)
        else
          (.redirectTo ⟨go.auth,
            [("response_type", "code"), ("client_id", go.clientId),
             ("redirect_uri", go.redirectUri), ("scope", go.scope),
             ("access_type", "offline"), ("prompt", "consent"),
             ("state", state)]⟩, txns)

/-! ## URL origin

Embeds `new URL(u).origin` for the http(s) URLs the relay stores:
lower-cased scheme and host, userinfo dropped, default port elided.
The helpers are structural list programs so that the kernel can evaluate
them on concrete URLs. -/

def breakSub (sep : List Char) : List Char → Option (List Char × List Char)
  | [] => none
  | c :: cs =>
    if sep.isPrefixOf (c :: cs) then some ([], (c :: cs).drop sep.length)
    else
      match breakSub sep cs with
      | some (a, b) => some (c :: a, b)
      | none => none

def takeUntilDelim (l : List Char) : List Char :=
  l.takeWhile (fun c => !(c = '/' || c = '?' || c = '#'))

def afterLastAt (l : List Char) : List Char :=
  (l.reverse.takeWhile (fun c => c ≠ '@')).reverse

def hostPortSplit (l : List Char) : List Char × Option (List Char) :=
  let tail := l.reverse.takeWhile (fun c => c ≠ ':')
  if tail.length = l.length then (l, none)
  else (l.take (l.length - tail.length - 1), some tail.reverse)

def natOfDigits (l : List Char) : Nat :=
  l.foldl (fun acc c => acc * 10 + (c.toNat - 48)) 0

def urlOrigin (url : String) : String :=
  match breakSub "://".data url.data with
  | none => "null"
  | some (schemeChars, rest) =>
    let scheme := schemeChars.map Char.toLower
    let hostport := afterLastAt (takeUntilDelim rest)
    let (hostChars, portChars) := hostPortSplit hostport
    let base := String.mk scheme ++ "://" ++ String.mk (hostChars.map Char.toLower)
    match portChars with
    | none => base
    | some p =>
      if p ≠ [] && p.all Char.isDigit then
        let n := natOfDigits p
        if (scheme = "http".data && n = 80) || (scheme = "https".data && n = 443) then base
        else base ++ ":" ++ toString n
      else base

/-! ## Callback Finisher

Embeds `finish(res, state, data, provider, isError)`. The rendered relay
page is represented structurally: the postMessage payload
(`\x7bprovider, token\x7d` or `\x7bprovider, error\x7d`), the postMessage
target origin, and the human-readable body message. -/

structure TokenData where
  access_token : Option String
  error : Option String
  error_description : Option String

inductive MsgPayload where
  | token (t : Option String)
  | err (e : String)

structure RelayPage where
  provider : String
  payload : MsgPayload
  targetOrigin : String
  message : String

inductive FinishResult where
  | invalidState
  | ok (page : RelayPage)

/-- Body text of the fixed invalid-state page (whitespace normalised). -/
def invalidStateHtml : String :=
  "<html><body><h2>Error</h2><p>Invalid state parameter. This may be a sign of a CSRF attack. Please close this window and try again.</p></body></html>"

def FinishResult.status : FinishResult → Nat
  | .invalidState => 400
  | .ok _ => 200

def finish (txns : Store) (state : String) (data : TokenData) (provider : String)
    (isError : Bool) : FinishResult × Store :=
  match txns.get state with
  | none => (.invalidState, txns)
  | some redirect =>
    let txns := txns.del state
    let payload : MsgPayload :=
      if isError then .err (jsOrS data.error "An unknown error occurred.")
      else .token data.access_token
    let message :=
      match payload with
      | .err e => "Authentication failed: " ++ e
      | .token _ => "Authentication successful!"
    (.ok ⟨provider, payload, urlOrigin redirect, message⟩, txns)

/-! ## Token exchange

Embeds `exchangeSpotify` and `exchangeGoogle`: the single POST each one
issues is represented as an `HttpRequest` value (URL, method, headers,
form-encoded body), and the `fetch` itself becomes a function parameter
`net`. `Buffer.from(id + ":" + secret).toString("base64")` is embedded
with an explicit UTF-8 plus base64 encoder. -/

def utf8Char (c : Char) : List Nat :=
  let n := c.toNat
  if n < 0x80 then [n]
  else if n < 0x800 then [0xC0 + n / 64, 0x80 + n % 64]
  else if n < 0x10000 then [0xE0 + n / 4096, 0x80 + (n / 64) % 64, 0x80 + n % 64]
  else [0xF0 + n / 262144, 0x80 + (n / 4096) % 64, 0x80 + (n / 64) % 64, 0x80 + n % 64]

def base64Table : List Char :=
  "ABCDEFGHIJKLMNOPQRSTUVWXYZabcdefghijklmnopqrstuvwxyz0123456789+/".data

def b64Char (n : Nat) : Char := base64Table.getD n 'A'

def b64Chunks : List Nat → List Char
  | [] => []
  | [b1] => [b64Char (b1 / 4), b64Char ((b1 % 4) * 16), '=', '=']
  | [b1, b2] => [b64Char (b1 / 4), b64Char ((b1 % 4) * 16 + b2 / 16), b64Char ((b2 % 16) * 4), '=']
  | b1 :: b2 :: b3 :: rest =>
    b64Char (b1 / 4) :: b64Char ((b1 % 4) * 16 + b2 / 16) ::
      b64Char ((b2 % 16) * 4 + b3 / 64) :: b64Char (b3 % 64) :: b64Chunks rest

def base64Encode (s : String) : String :=
  String.mk (b64Chunks (s.data.flatMap utf8Char))

structure HttpRequest where
  url : String
  method : String
  headers : List (String × String)
  body : List (String × String)

def spotifyTokenRequest (sp : ProviderCfg) (code : String) : HttpRequest :=
  ⟨sp.token, "POST",
   [("Content-Type", "application/x-www-form-urlencoded"),
    ("Authorization", "Basic " ++ base64Encode (sp.clientId ++ ":" ++ sp.clientSecret))],
   [("grant_type", "authorization_code"), ("code", code), ("redirect_uri", sp.redirectUri)]⟩

def googleTokenRequest (go : ProviderCfg) (code : String) : HttpRequest :=
  ⟨go.token, "POST",
   [("Content-Type", "application/x-www-form-urlencoded")],
   [("grant_type", "authorization_code"), ("code", code),
    ("client_id", go.clientId), ("client_secret", go.clientSecret),
    ("redirect_uri", go.redirectUri)]⟩

/-- Result of `await fetch(...)` followed by `await r.json()`: the HTTP
success flag `r.ok` and the decoded JSON body restricted to the fields
the helpers read. -/
structure HttpReply where
  ok : Bool
  body : TokenData

/-- Shared tail of both exchange helpers: on `r.ok` the decoded body is
returned as is; otherwise an object carrying
`data.error_description || data.error || generic`. -/
def exchangeMap (generic : String) (rep : HttpReply) : TokenData :=
  if rep.ok then rep.body
  else ⟨none, some (jsOrS rep.body.error_description (jsOrS rep.body.error generic)), none⟩

def exchangeSpotify (sp : ProviderCfg) (net : HttpRequest → HttpReply) (code : String) :
    TokenData :=
  exchangeMap "Failed to exchange token with Spotify" (net (spotifyTokenRequest sp code))

def exchangeGoogle (go : ProviderCfg) (net : HttpRequest → HttpReply) (code : String) :
    TokenData :=
  exchangeMap "Failed to exchange token with Google" (net (googleTokenRequest go code))

/-! ## GET /callback/spotify and /callback/google

The two callback handlers differ only in the provider name baked into
their messages and the exchange helper they call; both are embedded as
instances of one handler indexed by the provider tag. The outcome records
the response, the store after the request, and whether the token-exchange
network call happened. -/

inductive Provider where
  | spotify
  | google
deriving DecidableEq

def Provider.name : Provider → String
  | .spotify => "spotify"
  | .google => "google"

def Provider.missingStateMsg : Provider → String
  | .spotify => "Missing state from Spotify callback."
  | .google => "Missing state from Google callback."

def Provider.missingCodeMsg : Provider → String
  | .spotify => "Missing code from Spotify callback."
  | .google => "Missing code from Google callback."

def Provider.exchange (p : Provider) (sp go : ProviderCfg) (net : HttpRequest → HttpReply)
    (code : String) : TokenData :=
  match p with
  | .spotify => exchangeSpotify sp net code
  | .google => exchangeGoogle go net code

inductive CallbackResponse where
  | badRequest (msg : String)
  | finished (r : FinishResult)

def CallbackResponse.status : CallbackResponse → Nat
  | .badRequest _ => 400
  | .finished r => r.status

structure CallbackOutcome where
  response : CallbackResponse
  txns : Store
  exchangeCalled : Bool

def callbackHandler (p : Provider) (txns : Store) (code state error : Option String)
    (net : HttpRequest → HttpReply) (sp go : ProviderCfg) : CallbackOutcome :=
  if !truthyS state then ⟨.badRequest p.missingStateMsg, txns, false⟩
  else
    let st := state.getD ""
    if truthyS error then
      let fr := finish txns st ⟨none, error, none⟩ p.name true
      ⟨.finished fr.1, fr.2, false⟩
    else if !truthyS code then
      let fr := finish txns st ⟨none, some p.missingCodeMsg, none⟩ p.name true
      ⟨.finished fr.1, fr.2, false⟩
    else
      let tokens := p.exchange sp go net (code.getD "")
      if truthyS tokens.error || !truthyS tokens.access_token then
        let fr := finish txns st ⟨none, tokens.error, none⟩ p.name true
        ⟨.finished fr.1, fr.2, true⟩
      else
        let fr := finish txns st tokens p.name false
        ⟨.finished fr.1, fr.2, true⟩

/-- The postMessage target origin of the rendered relay page, when the
outcome rendered one. -/
def CallbackOutcome.originOf : CallbackOutcome → Option String
  | ⟨.finished (.ok page), _, _⟩ => some page.targetOrigin
  | _ => none

/-! ## AI endpoints: request-body values and the early checks

The three AI handlers all open with the same two guards, in this order:
`if (!genAI) return res.status(503)...` and then a truthiness test of the
destructured body fields returning 400 "Missing parameters.". Body fields
are arbitrary JSON values (absent fields destructure to `undefined`,
embedded as `null`), so truthiness is JSON-value truthiness. -/

inductive Jx where
  | null
  | bool (b : Bool)
  | num (n : Int)
  | str (s : String)
  | arr (xs : List Jx)
  | obj (fs : List (String × Jx))

def Jx.truthy : Jx → Bool
  | .null => false
  | .bool b => b
  | .num n => n ≠ 0
  | .str s => s ≠ ""
  | .arr _ => true
  | .obj _ => true

structure ErrResponse where
  status : Nat
  error : String

def svcUnavailable : ErrResponse := ⟨503, "AI service not configured."⟩

def missingParams : ErrResponse := ⟨400, "Missing parameters."⟩

/-- Early guards of POST /generate-album-cover-prompt. Returns the error
response the handler sends before reaching the model call, if any. -/
def albumCoverPromptEarly (configured : Bool) (imageData imageMimeType mood styles : Jx) :
    Option ErrResponse :=
  if !configured then some svcUnavailable
  else if !imageData.truthy || !imageMimeType.truthy || !mood.truthy || !styles.truthy then
    some missingParams
  else none

/-- Early guards of POST /edit-selfie-into-album-cover. -/
def editSelfieEarly (configured : Bool) (imageData imageMimeType prompt : Jx) :
    Option ErrResponse :=
  if !configured then some svcUnavailable
  else if !imageData.truthy || !imageMimeType.truthy || !prompt.truthy then
    some missingParams
  else none

/-- Early guards of POST /generate-playlist-vibe. -/
def generatePlaylistVibeEarly (configured : Bool) (mood albumPrompt playlistLength : Jx) :
    Option ErrResponse :=
  if !configured then some svcUnavailable
  else if !mood.truthy || !albumPrompt.truthy || !playlistLength.truthy then
    some missingParams
  else none

/-! ## POST /generate-playlist-vibe: upstream-text processing

Embeds the response-processing tail of the playlist-vibe handler in the
fence-stripping server variant: `resp.text?.trim() || ""`, the fence
regex match against ^(three backticks)(json)?...(three backticks)$ with
the matched group trimmed, `JSON.parse` (a runtime primitive, passed in
as the parameter `parse`), 502 on parse failure and `res.json(data)` on
success. -/

/-- Embeds `String.prototype.trim()` as a structural list program
(whitespace per `Char.isWhitespace`). -/
def trimStr (s : String) : String :=
  String.mk (((s.data.dropWhile Char.isWhitespace).reverse.dropWhile Char.isWhitespace).reverse)

def backquote : Char := Char.ofNat 96

def fenceMark : List Char := [backquote, backquote, backquote]

/-- Matches the anchored fence regex against `s` and returns the raw
content between the fences (group 1 before its final trim). The optional
`json` tag is case-insensitive. -/
def stripFenceInner (s : String) : Option String :=
  let l := s.data
  if fenceMark.isPrefixOf l then
    let r := l.drop 3
    let r := if (r.take 4).map Char.toLower = "json".data then r.drop 4 else r
    if decide (3 ≤ r.length) && fenceMark.isPrefixOf r.reverse then
      some (String.mk (r.reverse.drop 3).reverse)
    else none
  else none

/-- The string handed to JSON.parse: the trimmed upstream text with a
wrapping code fence, when present, stripped and the remainder trimmed. -/
def vibeJsonText (txt : Option String) : String :=
  let jsonText := match txt with | none => "" | some s => trimStr s
  match stripFenceInner jsonText with
  | some inner => trimStr inner
  | none => jsonText

inductive VibeResponse where
  | badGateway (msg : String)
  | okJson (d : Jx)

def VibeResponse.status : VibeResponse → Nat
  | .badGateway _ => 502
  | .okJson _ => 200

def vibeProcess (parse : String → Option Jx) (txt : Option String) : VibeResponse :=
  match parse (vibeJsonText txt) with
  | none => .badGateway "Model did not return valid JSON."
  | some d => .okJson d

def Jx.fieldAux : List (String × Jx) → String → Option Jx
  | [], _ => none
  | (k, v) :: rest, s => if k = s then some v else Jx.fieldAux rest s

/-- Looks a key up in a JSON object, as JavaScript property access on the
parsed result. -/
def Jx.field : Jx → String → Option Jx
  | .obj fs, k => Jx.fieldAux fs k
  | _, _ => none

/-- Number of entries of the `songs` array of a parsed playlist object. -/
def Jx.songsCount (d : Jx) : Option Nat :=
  match d.field "songs" with
  | some (.arr xs) => some xs.length
  | _ => none

/-- The `songs` length of the JSON body a VibeResponse returns, if the
response returned a parsed object with a `songs` array. -/
def VibeResponse.songsCount : VibeResponse → Option Nat
  | .badGateway _ => none
  | .okJson d => d.songsCount


/-- Generic fallback message of each exchange helper. -/
def Provider.genericError : Provider → String
  | .spotify => "Failed to exchange token with Spotify"
  | .google => "Failed to exchange token with Google"

/-- The single POST the provider exchange helper issues for a code. -/
def Provider.tokenRequest (p : Provider) (sp go : ProviderCfg) (code : String) : HttpRequest :=
  match p with
  | .spotify => spotifyTokenRequest sp code
  | .google => googleTokenRequest go code

/-- Whether the outcome rendered the relay page of a successful flow
(payload carries a token rather than an error). -/
def CallbackOutcome.succeeded : CallbackOutcome → Bool
  | ⟨.finished (.ok ⟨_, .token _, _, _⟩), _, _⟩ => true
  | _ => false

/-! ## Concrete instances used in the closed evaluation theorems -/

/-- A concrete JSON.parse stand-in accepting one playlist object with five
songs. -/
def parseFive : String → Option Jx :=
  fun t =>
    if t = "\x7b \"songs\": [1, 2, 3, 4, 5] \x7d"
    then some (.obj [("songs", .arr [.num 1, .num 2, .num 3, .num 4, .num 5])])
    else none

/-- A fenced upstream text whose body is the object `parseFive` accepts. -/
def fencedFive : String := "```json\n\x7b \"songs\": [1, 2, 3, 4, 5] \x7d\n```"

/-- A token endpoint returning a non-2xx status with an empty body. -/
def netDeny : HttpRequest → HttpReply := fun _ => ⟨false, ⟨none, none, none⟩⟩

/-- A token endpoint returning a non-2xx status whose JSON body carries an
empty error_description and an error code. -/
def netErr : HttpRequest → HttpReply := fun _ => ⟨false, ⟨none, some "bad_grant", some ""⟩⟩

/-! ## Supporting lemmas -/

@[simp] theorem Store.get_set_self (st : Store) (s r : String) :
    (st.set s r).get s = some r := by
  induction st with
  | nil => simp [Store.set, Store.get]
  | cons kv rest ih =>
    obtain ⟨k, v⟩ := kv
    by_cases h : k = s <;> simp [Store.set, Store.get, h, ih]

theorem Store.get_set_ne (st : Store) (s r t : String) (h : t ≠ s) :
    (st.set s r).get t = st.get t := by
  have h' : s ≠ t := Ne.symm h
  induction st with
  | nil => simp [Store.set, Store.get, h']
  | cons kv rest ih =>
    obtain ⟨k, v⟩ := kv
    by_cases hk : k = s
    · subst hk
      simp [Store.set, Store.get, h']
    · simp [Store.set, Store.get, hk, ih]

@[simp] theorem Store.get_del_self (st : Store) (s : String) :
    (st.del s).get s = none := by
  induction st with
  | nil => simp [Store.del, Store.get]
  | cons kv rest ih =>
    obtain ⟨k, v⟩ := kv
    by_cases h : k = s <;> simp [Store.del, Store.get, h, ih]

theorem Store.get_del_ne (st : Store) (s t : String) (h : t ≠ s) :
    (st.del s).get t = st.get t := by
  induction st with
  | nil => simp [Store.del, Store.get]
  | cons kv rest ih =>
    obtain ⟨k, v⟩ := kv
    by_cases hk : k = s
    · subst hk
      simp [Store.del, Store.get, Ne.symm h, ih]
    · simp [Store.del, Store.get, hk, ih]

theorem Store.length_set_fresh (st : Store) (s r : String) (h : st.get s = none) :
    (st.set s r).length = st.length + 1 := by
  induction st with
  | nil => simp [Store.set]
  | cons kv rest ih =>
    obtain ⟨k, v⟩ := kv
    by_cases hk : k = s
    · simp [Store.get, hk] at h
    · simp [Store.get, hk] at h
      simp [Store.set, hk, ih h]

theorem jsOrS_ne_empty (x : Option String) (b : String) (hb : b ≠ "") : jsOrS x b ≠ "" := by
  cases x with
  | none => simpa [jsOrS]
  | some a =>
    by_cases ha : a = "" <;> simp [jsOrS, ha, hb]

theorem Provider.exchange_eq (p : Provider) (sp go : ProviderCfg) (net : HttpRequest → HttpReply)
    (code : String) :
    p.exchange sp go net code = exchangeMap p.genericError (net (p.tokenRequest sp go code)) := by
  cases p <;> rfl

theorem finish_found (txns : Store) (state r : String) (data : TokenData) (provider : String)
    (isError : Bool) (h : txns.get state = some r) :
    finish txns state data provider isError =
      (.ok ⟨provider,
            if isError then .err (jsOrS data.error "An unknown error occurred.")
            else .token data.access_token,
            urlOrigin r,
            if isError then "Authentication failed: " ++ jsOrS data.error "An unknown error occurred."
            else "Authentication successful!"⟩,
       txns.del state) := by
  cases isError <;> simp [finish, h]

theorem redirectOk_ne_empty (r : String) (h : redirectOk r = true) : r ≠ "" := by
  intro he
  subst he
  exact absurd h (by decide)

/-! ## Claim theorems -/

/-- C5: the /oauth/start handler answers HTTP 400 "bad provider" for every
provider other than spotify or google, and HTTP 400 "bad redirect" for
every redirect that is absent or fails the http(s) shape test; in both
cases the transaction store is returned unchanged, so no transaction is
created. -/
theorem oauth_start_rejects_invalid (txns : Store) (provider redirect : Option String)
    (state : String) (sp go : ProviderCfg) :
    (validProvider provider = false →
      oauthStart txns provider redirect state sp go = (.badProvider, txns))
    ∧ (redirect = none → validProvider provider = true →
      oauthStart txns provider redirect state sp go = (.badRedirect, txns))
    ∧ (∀ r, redirect = some r → redirectOk r = false → validProvider provider = true →
      oauthStart txns provider redirect state sp go = (.badRedirect, txns)) := by
  refine ⟨fun h => by simp [oauthStart, h], fun h hv => by simp [oauthStart, h, hv], ?_⟩
  rintro r rfl hr hv
  simp [oauthStart, hv, hr]

/-- C5 witness: provider=twitter is rejected with "bad provider" and
redirect=javascript:alert(1) is rejected with "bad redirect", leaving the
store empty. -/
theorem oauth_start_rejects_invalid_witness :
    oauthStart [] (some "twitter") (some "https://app.example.com/cb") "s1"
        (cfgSpotify "ci" "cs" "https://srv.example.com/cb/s")
        (cfgGoogle "ci" "cs" "https://srv.example.com/cb/g") = (.badProvider, [])
    ∧ oauthStart [] (some "spotify") (some "javascript:alert(1)") "s1"
        (cfgSpotify "ci" "cs" "https://srv.example.com/cb/s")
        (cfgGoogle "ci" "cs" "https://srv.example.com/cb/g") = (.badRedirect, []) := by
  constructor
  · exact (oauth_start_rejects_invalid [] (some "twitter") (some "https://app.example.com/cb")
      "s1" _ _).1 (by decide)
  · exact (oauth_start_rejects_invalid [] (some "spotify") (some "javascript:alert(1)")
      "s1" _ _).2.2 "javascript:alert(1)" rfl (by decide) (by decide)

/-- C4: for a valid provider and redirect and a fresh state token,
/oauth/start stores exactly one new transaction (the new state maps to the
redirect, the store grows by one entry, every other key is untouched) and
redirects to the provider authorization URL with exactly the required
query parameters in order: spotify gets response_type, client_id,
redirect_uri, scope, state, show_dialog=true; google gets response_type,
client_id, redirect_uri, scope, access_type=offline, prompt=consent,
state. -/
theorem oauth_start_creates_one_txn (txns : Store) (r state : String) (sp go : ProviderCfg)
    (hr : redirectOk r = true) (hfresh : txns.get state = none) :
    oauthStart txns (some "spotify") (some r) state sp go =
      (.redirectTo ⟨sp.auth,
        [("response_type", "code"), ("client_id", sp.clientId),
         ("redirect_uri", sp.redirectUri), ("scope", sp.scope),
         ("state", state), ("show_dialog", "true")]⟩, txns.set state r)
    ∧ oauthStart txns (some "google") (some r) state sp go =
      (.redirectTo ⟨go.auth,
        [("response_type", "code"), ("client_id", go.clientId),
         ("redirect_uri", go.redirectUri), ("scope", go.scope),
         ("access_type", "offline"), ("prompt", "consent"),
         ("state", state)]⟩, txns.set state r)
    ∧ (txns.set state r).get state = some r
    ∧ (txns.set state r).length = txns.length + 1
    ∧ (∀ t, t ≠ state → (txns.set state r).get t = txns.get t) := by
  have hne : r ≠ "" := redirectOk_ne_empty r hr
  refine ⟨?_, ?_, Store.get_set_self txns state r, Store.length_set_fresh txns state r hfresh,
    fun t ht => Store.get_set_ne txns state r t ht⟩
  · simp [oauthStart, hr, hne, validProvider]
  · simp [oauthStart, hr, hne, validProvider]

/-- C4 witness: a concrete valid start request for each provider stores
the redirect under the fresh state and issues the exact parameter list. -/
theorem oauth_start_creates_one_txn_witness :
    oauthStart [] (some "spotify") (some "https://app.example.com/cb") "abcd"
        (cfgSpotify "ci" "cs" "https://srv.example.com/cb/s")
        (cfgGoogle "gi" "gs" "https://srv.example.com/cb/g") =
      (.redirectTo ⟨"https://accounts.spotify.com/authorize",
        [("response_type", "code"), ("client_id", "ci"),
         ("redirect_uri", "https://srv.example.com/cb/s"),
         ("scope", "playlist-modify-public playlist-modify-private ugc-image-upload"),
         ("state", "abcd"), ("show_dialog", "true")]⟩,
       [("abcd", "https://app.example.com/cb")]) := by
  have h := (oauth_start_creates_one_txn [] "https://app.example.com/cb" "abcd"
    (cfgSpotify "ci" "cs" "https://srv.example.com/cb/s")
    (cfgGoogle "gi" "gs" "https://srv.example.com/cb/g") (by decide) rfl).1
  simpa [cfgSpotify, cfgGoogle, Store.set] using h

/-- C2: a state token is consumed at most once by the finisher: when the
state is in the store, the first finish call (success or failure alike)
removes the entry, a second finish call with the same state answers the
fixed invalid-state page, and a state never stored answers the same fixed
page without touching the store; the invalid-state response has HTTP
status 400. -/
theorem state_consumed_once (txns : Store) (state r : String) (d d2 : TokenData)
    (p p2 : String) (e e2 : Bool) :
    (txns.get state = some r →
      ((finish txns state d p e).2.get state = none
       ∧ finish (finish txns state d p e).2 state d2 p2 e2 =
           (.invalidState, (finish txns state d p e).2)))
    ∧ (txns.get state = none → finish txns state d p e = (.invalidState, txns))
    ∧ FinishResult.invalidState.status = 400 := by
  refine ⟨fun h => ?_, fun h => by simp [finish, h], rfl⟩
  have h2 : (finish txns state d p e).2 = txns.del state := by
    cases e <;> simp [finish, h]
  rw [h2]
  exact ⟨Store.get_del_self txns state, by simp [finish, Store.get_del_self]⟩

/-- C2 witness: with one stored transaction, the first finish deletes it
and a repeated finish with the same state yields the invalid-state
response. -/
theorem state_consumed_once_witness :
    ((finish [("st", "https://app.example.com/cb")] "st" ⟨some "tok", none, none⟩
        "spotify" false).2).get "st" = none
    ∧ finish ((finish [("st", "https://app.example.com/cb")] "st" ⟨some "tok", none, none⟩
        "spotify" false).2) "st" ⟨none, some "boom", none⟩ "spotify" true =
      (.invalidState,
       (finish [("st", "https://app.example.com/cb")] "st" ⟨some "tok", none, none⟩
        "spotify" false).2) := by
  exact (state_consumed_once [("st", "https://app.example.com/cb")] "st"
    "https://app.example.com/cb" ⟨some "tok", none, none⟩ ⟨none, some "boom", none⟩
    "spotify" "spotify" false true).1 rfl

/-- C9: in each of the three AI endpoints the configured-credential guard
runs before body-field validation: with no credential configured every
request gets the 503 service-unavailable response whatever the body
fields are, and a 400 Missing-parameters response can only arise with a
credential configured; the two fixed responses carry statuses 503 and
400. -/
theorem credential_check_before_validation (configured : Bool) (a b c d e f g h i j : Jx) :
    (configured = false →
      albumCoverPromptEarly configured a b c d = some svcUnavailable
      ∧ editSelfieEarly configured e f g = some svcUnavailable
      ∧ generatePlaylistVibeEarly configured h i j = some svcUnavailable)
    ∧ (albumCoverPromptEarly configured a b c d = some missingParams → configured = true)
    ∧ (editSelfieEarly configured e f g = some missingParams → configured = true)
    ∧ (generatePlaylistVibeEarly configured h i j = some missingParams → configured = true)
    ∧ svcUnavailable.status = 503 ∧ missingParams.status = 400 := by
  refine ⟨fun hc => ?_, ?_, ?_, ?_, rfl, rfl⟩
  · subst hc
    exact ⟨rfl, rfl, rfl⟩
  all_goals
    intro hm
    cases configured with
    | true => rfl
    | false =>
      simp [albumCoverPromptEarly, editSelfieEarly, generatePlaylistVibeEarly,
        svcUnavailable, missingParams] at hm

/-- C9 witness: with no credential configured, a playlist-vibe request
that is also missing every body field still receives the 503 response,
not the 400 one. -/
theorem credential_check_before_validation_witness :
    generatePlaylistVibeEarly false Jx.null Jx.null Jx.null = some svcUnavailable
    ∧ albumCoverPromptEarly false Jx.null Jx.null Jx.null Jx.null = some svcUnavailable
    ∧ editSelfieEarly false Jx.null Jx.null Jx.null = some svcUnavailable := by
  have h := (credential_check_before_validation false Jx.null Jx.null Jx.null Jx.null
    Jx.null Jx.null Jx.null Jx.null Jx.null Jx.null).1 rfl
  exact ⟨h.2.2, h.1, h.2.1⟩

/-- C10: with a credential configured, the playlist-vibe endpoint rejects
the request with the 400 Missing-parameters response whenever any of the
three body fields is falsy, so a present-but-falsy field such as
playlistLength=0 or an empty-string mood counts as missing. -/
theorem falsy_fields_rejected (mood albumPrompt playlistLength : Jx)
    (h : mood.truthy = false ∨ albumPrompt.truthy = false ∨ playlistLength.truthy = false) :
    generatePlaylistVibeEarly true mood albumPrompt playlistLength = some missingParams := by
  rcases h with h | h | h <;> simp [generatePlaylistVibeEarly, h]

/-- C10 witness: playlistLength=0 and an empty mood are each rejected as
missing even though the field is present. -/
theorem falsy_fields_rejected_witness :
    generatePlaylistVibeEarly true (.str "happy") (.str "an art prompt") (.num 0) =
      some missingParams
    ∧ generatePlaylistVibeEarly true (.str "") (.str "an art prompt") (.num 5) =
      some missingParams := by
  exact ⟨falsy_fields_rejected _ _ _ (Or.inr (Or.inr rfl)),
    falsy_fields_rejected _ _ _ (Or.inl rfl)⟩

theorem callback_origin_found (p : Provider) (txns : Store) (state r : String)
    (code error : Option String) (net : HttpRequest → HttpReply) (sp go : ProviderCfg)
    (hs : state ≠ "") (h : txns.get state = some r) :
    (callbackHandler p txns code (some state) error net sp go).originOf =
      some (urlOrigin r) := by
  have hts : truthyS (some state) = true := by simp [truthyS, hs]
  by_cases he : truthyS error = true
  · simp [callbackHandler, hts, he, finish_found txns state r _ _ _ h,
      CallbackOutcome.originOf]
  · by_cases hc : truthyS code = true
    · by_cases ht : (truthyS (p.exchange sp go net (code.getD "")).error
        || !truthyS (p.exchange sp go net (code.getD "")).access_token) = true
      · simp [callbackHandler, hts, he, hc, ht, finish_found txns state r _ _ _ h,
          CallbackOutcome.originOf]
      · simp [callbackHandler, hts, he, hc, ht, finish_found txns state r _ _ _ h,
          CallbackOutcome.originOf]
    · simp [callbackHandler, hts, he, hc, finish_found txns state r _ _ _ h,
        CallbackOutcome.originOf]

/-- C1: for a callback whose state is found, the postMessage target origin
of the rendered relay page is the origin component of the redirect stored
for that state when /oauth/start created it — uniformly in the code and
error parameters and in the network, so nothing the callback request
supplies enters the origin. -/
theorem postmessage_origin_from_stored_redirect (p : Provider) (txns : Store) (r state : String)
    (code error : Option String) (net : HttpRequest → HttpReply) (sp go : ProviderCfg)
    (hs : state ≠ "") (hr : redirectOk r = true) :
    (callbackHandler p (oauthStart txns (some p.name) (some r) state sp go).2
        code (some state) error net sp go).originOf = some (urlOrigin r)
    ∧ (∀ txns2 : Store, txns2.get state = some r →
        (callbackHandler p txns2 code (some state) error net sp go).originOf =
          some (urlOrigin r)) := by
  have hstore : (oauthStart txns (some p.name) (some r) state sp go).2 = txns.set state r := by
    cases p <;>
      simp [oauthStart, validProvider, Provider.name, hr, redirectOk_ne_empty r hr]
  refine ⟨?_, fun txns2 h2 => callback_origin_found p txns2 state r code error net sp go hs h2⟩
  rw [hstore]
  exact callback_origin_found p _ state r code error net sp go hs
    (Store.get_set_self txns state r)

/-- C1 witness: a spotify flow started with a concrete redirect renders a
relay page whose target origin is that redirect origin, with arbitrary
callback parameters. -/
theorem postmessage_origin_from_stored_redirect_witness :
    (callbackHandler Provider.spotify
        (oauthStart [] (some "spotify") (some "https://app.example.com/cb?x=1") "abcd"
          (cfgSpotify "ci" "cs" "https://srv.example.com/cb/s")
          (cfgGoogle "gi" "gs" "https://srv.example.com/cb/g")).2
        (some "thecode") (some "abcd") none netDeny
        (cfgSpotify "ci" "cs" "https://srv.example.com/cb/s")
        (cfgGoogle "gi" "gs" "https://srv.example.com/cb/g")).originOf =
      some "https://app.example.com" := by
  have h := (postmessage_origin_from_stored_redirect Provider.spotify []
    "https://app.example.com/cb?x=1" "abcd" (some "thecode") none netDeny
    (cfgSpotify "ci" "cs" "https://srv.example.com/cb/s")
    (cfgGoogle "gi" "gs" "https://srv.example.com/cb/g")
    (by decide) (by decide)).1
  exact h.trans (by rfl)

/-- C3: the callback handlers dispatch exactly as specified: an absent or
empty state gets the 400 bad-request response with the store untouched
and no exchange; a provider error parameter makes the handler finish as a
failure without calling the exchange; an absent code finishes as a
failure with the fixed missing-code message, again without exchange;
otherwise the exchange runs and the flow finishes as success exactly when
no error came back and an access_token was returned, as failure
otherwise. -/
theorem callback_dispatch (p : Provider) (txns : Store) (code state error : Option String)
    (net : HttpRequest → HttpReply) (sp go : ProviderCfg) :
    (truthyS state = false →
      callbackHandler p txns code state error net sp go =
        ⟨.badRequest p.missingStateMsg, txns, false⟩
      ∧ (CallbackResponse.badRequest p.missingStateMsg).status = 400)
    ∧ (∀ s, state = some s → s ≠ "" → truthyS error = true →
      callbackHandler p txns code state error net sp go =
        ⟨.finished (finish txns s ⟨none, error, none⟩ p.name true).1,
         (finish txns s ⟨none, error, none⟩ p.name true).2, false⟩)
    ∧ (∀ s, state = some s → s ≠ "" → truthyS error = false → truthyS code = false →
      callbackHandler p txns code state error net sp go =
        ⟨.finished (finish txns s ⟨none, some p.missingCodeMsg, none⟩ p.name true).1,
         (finish txns s ⟨none, some p.missingCodeMsg, none⟩ p.name true).2, false⟩)
    ∧ (∀ s c, state = some s → s ≠ "" → truthyS error = false → code = some c → c ≠ "" →
      (callbackHandler p txns code state error net sp go).exchangeCalled = true
      ∧ ((truthyS (p.exchange sp go net c).error = false
          ∧ truthyS (p.exchange sp go net c).access_token = true) →
          callbackHandler p txns code state error net sp go =
            ⟨.finished (finish txns s (p.exchange sp go net c) p.name false).1,
             (finish txns s (p.exchange sp go net c) p.name false).2, true⟩)
      ∧ ((truthyS (p.exchange sp go net c).error = true
          ∨ truthyS (p.exchange sp go net c).access_token = false) →
          callbackHandler p txns code state error net sp go =
            ⟨.finished (finish txns s ⟨none, (p.exchange sp go net c).error, none⟩
                p.name true).1,
             (finish txns s ⟨none, (p.exchange sp go net c).error, none⟩ p.name true).2,
             true⟩)) := by
  refine ⟨fun h0 => ⟨by simp [callbackHandler, h0], rfl⟩, ?_, ?_, ?_⟩
  · rintro s rfl hs he
    have hts : truthyS (some s) = true := by simp [truthyS, hs]
    simp [callbackHandler, hts, he]
  · rintro s rfl hs he hc
    have hts : truthyS (some s) = true := by simp [truthyS, hs]
    simp [callbackHandler, hts, he, hc]
  · rintro s c rfl hs he rfl hcne
    have hts : truthyS (some s) = true := by simp [truthyS, hs]
    have htc : truthyS (some c) = true := by simp [truthyS, hcne]
    by_cases ht : (truthyS (p.exchange sp go net c).error
        || !truthyS (p.exchange sp go net c).access_token) = true
    · refine ⟨by simp [callbackHandler, hts, he, htc, ht], fun hgood => ?_, fun _ => ?_⟩
      · rcases hgood with ⟨hge, hgt⟩
        rw [hge, hgt] at ht
        simp at ht
      · simp [callbackHandler, hts, he, htc, ht]
    · have ht' := ht
      simp only [Bool.or_eq_true, Bool.not_eq_true'] at ht'
      push_neg at ht'
      refine ⟨by simp [callbackHandler, hts, he, htc, ht], fun _ => ?_, fun hbad => ?_⟩
      · simp [callbackHandler, hts, he, htc, ht]
      · rcases ht' with ⟨hte, hta⟩
        rcases hbad with hbad | hbad
        · rw [hbad] at hte
          exact absurd hte (by simp)
        · rw [hbad] at hta
          exact absurd hta (by simp)

/-- C3 witness: with error=access_denied present, the spotify callback
finishes as a failure with isError=true and the exchange flag false, and
with state absent the response is the fixed 400 bad request leaving the
store unchanged. -/
theorem callback_dispatch_witness :
    callbackHandler Provider.spotify [("st", "https://app.example.com/cb")] none (some "st")
        (some "access_denied") netDeny
        (cfgSpotify "ci" "cs" "https://srv.example.com/cb/s")
        (cfgGoogle "gi" "gs" "https://srv.example.com/cb/g") =
      ⟨.finished (finish [("st", "https://app.example.com/cb")] "st"
          ⟨none, some "access_denied", none⟩ "spotify" true).1,
       (finish [("st", "https://app.example.com/cb")] "st"
          ⟨none, some "access_denied", none⟩ "spotify" true).2, false⟩
    ∧ callbackHandler Provider.spotify [("st", "https://app.example.com/cb")] none none
        (some "access_denied") netDeny
        (cfgSpotify "ci" "cs" "https://srv.example.com/cb/s")
        (cfgGoogle "gi" "gs" "https://srv.example.com/cb/g") =
      ⟨.badRequest "Missing state from Spotify callback.",
       [("st", "https://app.example.com/cb")], false⟩ := by
  constructor
  · exact (callback_dispatch Provider.spotify [("st", "https://app.example.com/cb")] none
      (some "st") (some "access_denied") netDeny _ _).2.1 "st" rfl (by decide) (by decide)
  · exact ((callback_dispatch Provider.spotify [("st", "https://app.example.com/cb")] none
      none (some "access_denied") netDeny _ _).1 rfl).1

/-- C6: the spotify exchange issues one POST carrying form-encoded
grant_type=authorization_code, the code and the redirect URI, with an
Authorization header of scheme Basic over base64(clientId:clientSecret)
and no client credentials in the body; the google exchange issues the
same form-encoded POST but carries client_id and client_secret as body
fields and sends no Authorization header; and each helper is exactly the
response mapping applied to the network result of that one request. -/
theorem exchange_request_shapes (sp go : ProviderCfg) (code : String)
    (net : HttpRequest → HttpReply) :
    spotifyTokenRequest sp code =
      ⟨sp.token, "POST",
       [("Content-Type", "application/x-www-form-urlencoded"),
        ("Authorization", "Basic " ++ base64Encode (sp.clientId ++ ":" ++ sp.clientSecret))],
       [("grant_type", "authorization_code"), ("code", code),
        ("redirect_uri", sp.redirectUri)]⟩
    ∧ googleTokenRequest go code =
      ⟨go.token, "POST",
       [("Content-Type", "application/x-www-form-urlencoded")],
       [("grant_type", "authorization_code"), ("code", code),
        ("client_id", go.clientId), ("client_secret", go.clientSecret),
        ("redirect_uri", go.redirectUri)]⟩
    ∧ (spotifyTokenRequest sp code).body.all
        (fun kv => kv.1 ≠ "client_id" && kv.1 ≠ "client_secret") = true
    ∧ (googleTokenRequest go code).headers.all (fun kv => kv.1 ≠ "Authorization") = true
    ∧ exchangeSpotify sp net code =
        exchangeMap "Failed to exchange token with Spotify" (net (spotifyTokenRequest sp code))
    ∧ exchangeGoogle go net code =
        exchangeMap "Failed to exchange token with Google" (net (googleTokenRequest go code)) := by
  refine ⟨rfl, rfl, ?_, ?_, rfl, rfl⟩
  · simp [spotifyTokenRequest]
  · simp [googleTokenRequest]

/-- C7: when a callback carries a valid state and code but the token
endpoint answers non-2xx, the exchange helper returns an error carrying
error_description or error with the generic fallback, the relay page
reports the failure with that error text, and the transaction is deleted
from the store. -/
theorem exchange_error_path (p : Provider) (txns : Store) (s r c : String)
    (net : HttpRequest → HttpReply) (sp go : ProviderCfg)
    (hs : s ≠ "") (hc : c ≠ "") (hfound : txns.get s = some r)
    (hok : (net (p.tokenRequest sp go c)).ok = false) :
    ∀ errText, errText = jsOrS (net (p.tokenRequest sp go c)).body.error_description
        (jsOrS (net (p.tokenRequest sp go c)).body.error p.genericError) →
      p.exchange sp go net c = ⟨none, some errText, none⟩
      ∧ callbackHandler p txns (some c) (some s) none net sp go =
          ⟨.finished (.ok ⟨p.name, .err errText, urlOrigin r,
              "Authentication failed: " ++ errText⟩), txns.del s, true⟩
      ∧ (txns.del s).get s = none := by
  intro errText het
  have hgen : p.genericError ≠ "" := by cases p <;> decide
  have hx : p.exchange sp go net c = ⟨none, some errText, none⟩ := by
    rw [Provider.exchange_eq, exchangeMap, hok, het]
    simp
  have hne : errText ≠ "" := by
    rw [het]
    exact jsOrS_ne_empty _ _ (jsOrS_ne_empty _ _ hgen)
  have hts : truthyS (some s) = true := by simp [truthyS, hs]
  have htc : truthyS (some c) = true := by simp [truthyS, hc]
  refine ⟨hx, ?_, Store.get_del_self txns s⟩
  have herr : truthyS (p.exchange sp go net c).error = true := by
    rw [hx]
    simp [truthyS, hne]
  simp [callbackHandler, hts, htc, truthyS, hx, herr, hs, hc,
    finish_found txns s r _ _ _ hfound, jsOrS, hne]

/-- C7 witness: an endpoint replying non-2xx with an empty
error_description and error code bad_grant makes the spotify callback
render the failure page with that error text and delete the stored
transaction. -/
theorem exchange_error_path_witness :
    Provider.spotify.exchange (cfgSpotify "ci" "cs" "https://srv.example.com/cb/s")
        (cfgGoogle "gi" "gs" "https://srv.example.com/cb/g") netErr "code1" =
      ⟨none, some "bad_grant", none⟩
    ∧ callbackHandler Provider.spotify [("st", "https://app.example.com/cb")] (some "code1")
        (some "st") none netErr
        (cfgSpotify "ci" "cs" "https://srv.example.com/cb/s")
        (cfgGoogle "gi" "gs" "https://srv.example.com/cb/g") =
      ⟨.finished (.ok ⟨"spotify", .err "bad_grant", "https://app.example.com",
          "Authentication failed: bad_grant"⟩), [], true⟩ := by
  have h := exchange_error_path Provider.spotify [("st", "https://app.example.com/cb")]
    "st" "https://app.example.com/cb" "code1" netErr
    (cfgSpotify "ci" "cs" "https://srv.example.com/cb/s")
    (cfgGoogle "gi" "gs" "https://srv.example.com/cb/g")
    (by decide) (by decide) rfl rfl "bad_grant" (by rfl)
  exact ⟨h.1, h.2.1.trans (by rfl)⟩

/-- C8: in the fence-stripping playlist-vibe handler, the text handed to
JSON.parse is the trimmed upstream text with a wrapping code fence, when
the anchored fence pattern matches, replaced by its trimmed inner
content; when the parse succeeds the endpoint returns the parsed object
unchanged with status 200, so the songs array it returns is exactly the
upstream one; and when the parse fails the endpoint returns the fixed
502 bad-gateway error, never a partial object. -/
theorem vibe_parse_behavior (parse : String → Option Jx) (txt : Option String) :
    (∀ d, parse (vibeJsonText txt) = some d →
      vibeProcess parse txt = .okJson d
      ∧ (vibeProcess parse txt).status = 200
      ∧ (vibeProcess parse txt).songsCount = d.songsCount)
    ∧ (parse (vibeJsonText txt) = none →
      vibeProcess parse txt = .badGateway "Model did not return valid JSON."
      ∧ (vibeProcess parse txt).status = 502)
    ∧ (∀ s i, txt = some s → stripFenceInner (trimStr s) = some i →
      vibeJsonText txt = trimStr i) := by
  refine ⟨fun d h => ?_, fun h => ?_, ?_⟩
  · simp [vibeProcess, h, VibeResponse.status, VibeResponse.songsCount]
  · simp [vibeProcess, h, VibeResponse.status]
  · rintro s i rfl hstrip
    simp [vibeJsonText, hstrip]

/-- C8 witness: a fenced upstream object with five songs is stripped,
parsed and returned with a five-entry songs array, and an unparseable
upstream text yields the 502 response. -/
theorem vibe_parse_behavior_witness :
    vibeProcess parseFive (some fencedFive) =
      .okJson (.obj [("songs", .arr [.num 1, .num 2, .num 3, .num 4, .num 5])])
    ∧ (vibeProcess parseFive (some fencedFive)).songsCount = some 5
    ∧ vibeProcess parseFive (some "not json at all") =
      .badGateway "Model did not return valid JSON." := by
  have h1 := (vibe_parse_behavior parseFive (some fencedFive)).1
    (.obj [("songs", .arr [.num 1, .num 2, .num 3, .num 4, .num 5])]) (by rfl)
  have h2 := (vibe_parse_behavior parseFive (some "not json at all")).2.1 (by rfl)
  exact ⟨h1.1, h1.2.2.trans (by rfl), h2.1⟩

end VibeList
